import Mathlib

/-!
Shallow embedding of the guest-mode persistence layer of the academic-planning
web application: the device-local key-value store, guest session management
(src/frontend/src/utils/guestMode.ts), the dashboard's local task scan,
statistics aggregate and remote/local source resolution
(src/frontend/src/pages/Dashboard.tsx), and the logout cleanup contract.

Machine model: JS timestamps are integers (milliseconds since epoch) in a
fixed-offset timezone; `localStorage` is an association list with unique keys;
fallible remote calls are passed in as explicit response values.
-/

/-- A task record as read by the dashboard (interface `StoredTask` in
Dashboard.tsx, plus the `user_id` owner tag that `getLocalTasks` inspects).
The `due_date` field models the JS view of the stored field: `none` is an
absent or falsy field, `some none` a present string that `new Date(...)`
parses to NaN, and `some (some d)` a string parsing to the timestamp `d` in
milliseconds since epoch. Absent `id`/`user_id` fields are modelled as the
falsy empty string. -/
structure StoredTask where
  id : String := ""
  title : String := ""
  due_date : Option (Option Int) := none
  status : Option String := none
  user_id : String := ""
deriving DecidableEq

/-- A value held in local storage, tagged by its JSON parse class: `str s` is
a raw string that does not hold a task-shaped JSON record (session tokens,
auth keys, malformed or non-task JSON); `json t` is the serialization of the
task-shaped record `t`. `JSON.parse` applied to a `str` value either throws
or yields a value without a truthy `id`, so task scans skip it; applied to a
`json t` value it yields `t`. -/
inductive StoredVal where
  | str (s : String)
  | json (t : StoredTask)
deriving DecidableEq

/-- The raw-string view of a stored record, as `localStorage.getItem` would
return it. Only its string identity matters to the embedded operations (a
serialized record is a non-empty brace-delimited string, never equal to a
session token); the rendering keeps the discriminating fields. -/
def serializeTask (t : StoredTask) : String :=
  "\x7b\"id\":\"" ++ t.id ++ "\",\"user_id\":\"" ++ t.user_id ++ "\"\x7d"

def StoredVal.asString : StoredVal → String
  | .str s => s
  | .json t => serializeTask t

/-- Local storage: string-keyed, string-valued map. Keys are unique in every
state reachable through `lsSet`/`lsRemove`; iteration order carries no
meaning. -/
abbrev Store := List (String × StoredVal)

/-- `localStorage.getItem`, returning the stored value (or null = `none`). -/
def lsGet (st : Store) (k : String) : Option StoredVal :=
  (st.find? (fun kv => kv.1 == k)).map (fun kv => kv.2)

/-- `localStorage.getItem` under a string-typed read. -/
def lsGetString (st : Store) (k : String) : Option String :=
  (lsGet st k).map StoredVal.asString

/-- `localStorage.setItem`: last write wins. -/
def lsSet (st : Store) (k : String) (v : StoredVal) : Store :=
  (k, v) :: st.filter (fun kv => !(kv.1 == k))

/-- `localStorage.removeItem`. -/
def lsRemove (st : Store) (k : String) : Store :=
  st.filter (fun kv => !(kv.1 == k))

/-- JS truthiness of a `localStorage.getItem` result: null and the empty
string are falsy, every other string is truthy. -/
def jsTruthyStr : Option String → Bool
  | none => false
  | some s => !(s == "")

/-- `String.prototype.startsWith`, on character lists so that concrete
instances evaluate inside the kernel. -/
def keyStartsWith (k p : String) : Bool :=
  p.data.isPrefixOf k.data

/-- `String.prototype.toLowerCase` (ASCII case folding, which covers every
status literal the application compares). -/
def jsToLower (s : String) : String :=
  String.mk (s.data.map Char.toLower)

/-- `getOrCreateGuestSession` from guestMode.ts. `fresh` stands for the value
produced by `crypto.randomUUID()`; the returned Bool records whether the
fire-and-forget remote registration (`createGuestSessionInBackend`) was
issued on this call. The registration is not awaited and its outcome never
flows back into the returned token or the store. -/
def getOrCreateGuestSession (st : Store) (fresh : String) : String × Store × Bool :=
  let sessionId := lsGetString st "guest_session_id"
  if jsTruthyStr sessionId then
    (sessionId.getD "", st, false)
  else
    let sid := "guest-" ++ fresh
    (sid, lsSet st "guest_session_id" (StoredVal.str sid), true)

/-- `getGuestSessionId` from guestMode.ts. -/
def getGuestSessionId (st : Store) : Option String :=
  lsGetString st "guest_session_id"

/-- `clearGuestSession` from guestMode.ts: removes only the guest token key. -/
def clearGuestSession (st : Store) : Store :=
  lsRemove st "guest_session_id"

/-- Outcome of the `POST /api/guest/migrate/...` call made by
`migrateGuestData`: a 2xx response carrying the reported counts, a non-ok
HTTP response, or a network error thrown by `fetch`. -/
inductive MigrateResponse where
  | ok (migrated_tasks migrated_courses : Nat)
  | httpError
  | networkError
deriving DecidableEq

/-- The result object `migrateGuestData` resolves with. -/
structure MigrateResult where
  migrated_tasks : Nat
  migrated_courses : Nat
deriving DecidableEq

/-- `migrateGuestData` from guestMode.ts: no guest token (falsy) short-cuts
to zero counts; on an ok response it returns the remote's counts after
`clearGuestSession`; on a non-ok response or a thrown fetch it falls through
to the zero-count result without touching the store. -/
def migrateGuestData (st : Store) (resp : MigrateResponse) : MigrateResult × Store :=
  let guestSessionId := getGuestSessionId st
  if jsTruthyStr guestSessionId then
    match resp with
    | .ok a b => (⟨a, b⟩, clearGuestSession st)
    | .httpError => (⟨0, 0⟩, st)
    | .networkError => (⟨0, 0⟩, st)
  else
    (⟨0, 0⟩, st)

/-- `getLocalTasks` from Dashboard.tsx: scan every stored key, keep keys with
prefix `task_`, JSON-parse the value (a parse failure is caught and skipped),
and keep only records with a truthy `id` whose `user_id` equals "guest". -/
def getLocalTasks : Store → List StoredTask
  | [] => []
  | (k, v) :: rest =>
    (if keyStartsWith k "task_" then
      match v with
      | .json t => if !(t.id == "") && t.user_id == "guest" then [t] else []
      | .str _ => []
    else []) ++ getLocalTasks rest

/-- The statistics snapshot computed by the dashboard. -/
structure Stats where
  completed : Nat
  pending : Nat
  dueSoon : Nat
deriving DecidableEq

def addStats (a b : Stats) : Stats :=
  ⟨a.completed + b.completed, a.pending + b.pending, a.dueSoon + b.dueSoon⟩

/-- The due-soon cutoff of `computeStats`: `dueSoonThreshold.setDate(now.getDate() + 7)`.
Per ECMA-262 `MakeDay`/`MakeDate`, `setDate(getDate() + 7)` shifts the date's
time value by exactly seven days whenever the host timezone offset is constant
over the interval, which is the fixed-offset model used here (milliseconds). -/
def dueSoonThreshold (now : Int) : Int :=
  now + 7 * 86400000

/-- `(task.status || '').toLowerCase() === 'completed'` from `computeStats`. -/
def isCompletedStatus (status : Option String) : Bool :=
  jsToLower (status.getD "") == "completed"

/-- The due-soon test of `computeStats` for a non-completed task: the field
must be truthy, parse to a non-NaN date, and satisfy
`dueDate >= now && dueDate <= dueSoonThreshold`. -/
def isDueSoon (now : Int) (t : StoredTask) : Bool :=
  match t.due_date with
  | some (some d) => decide (now ≤ d) && decide (d ≤ dueSoonThreshold now)
  | some none => false
  | none => false

/-- The per-task contribution inside the `tasks.forEach` loop of
`computeStats`. -/
def taskStats (now : Int) (t : StoredTask) : Stats :=
  if isCompletedStatus t.status then ⟨1, 0, 0⟩
  else ⟨0, 1, if isDueSoon now t then 1 else 0⟩

/-- `computeStats` from Dashboard.tsx, with the evaluation time `now` (taken
from `new Date()` in the source) passed explicitly. -/
def computeStats (now : Int) (tasks : List StoredTask) : Stats :=
  tasks.foldl (fun acc t => addStats acc (taskStats now t)) ⟨0, 0, 0⟩

/-- `refreshStats` from Dashboard.tsx: with a truthy access token, fetch the
remote tasks (`fetchSupabaseTasks`, whose thrown errors surface as `none`);
a non-null, non-empty remote list is authoritative; otherwise fall back to
the guest-filtered local scan. -/
def refreshStats (st : Store) (remote : Option (List StoredTask)) (now : Int) : Stats :=
  if jsTruthyStr (lsGetString st "access_token") then
    match remote with
    | some l => if l.length > 0 then computeStats now l else computeStats now (getLocalTasks st)
    | none => computeStats now (getLocalTasks st)
  else
    computeStats now (getLocalTasks st)

/-- A key holding guest-scoped data, per the cleanup contract: prefix `task_`
or `course_` (the latter also covers `course_<id>_tasks`), or the literal key
`guest_session_id`. This is the filter the repository's logout-cleanup test
script (utils/debug/test-logout-cleanup.js) applies to `Object.keys` to
assert that no guest data remains. -/
def isGuestDataKey (k : String) : Bool :=
  keyStartsWith k "task_" || keyStartsWith k "course_" || k == "guest_session_id"

/-- `handleLogout` from the Navigation component (src/unnamed/part_004, lines
47-53): it removes exactly the three auth keys `access_token`, `user_email`
and `user_id`; the remaining statements (`handleMenuClose`, `navigate`) do
not touch local storage. -/
def handleLogout (st : Store) : Store :=
  lsRemove (lsRemove (lsRemove st "access_token") "user_email") "user_id"

/-- The concrete pre-logout local-storage state of scenario P7: three guest
tasks `task_a`/`task_b`/`task_c`, one course `course_x` with its index key
`course_x_tasks = ["a","b","c"]`, the guest token `guest-T1`, and the
unrelated auth key `access_token`. -/
def logoutStateP7 : Store :=
  [("guest_session_id", StoredVal.str "guest-T1"),
   ("task_a", StoredVal.json { id := "a", user_id := "guest" }),
   ("task_b", StoredVal.json { id := "b", user_id := "guest" }),
   ("task_c", StoredVal.json { id := "c", user_id := "guest" }),
   ("course_x", StoredVal.str "\x7b\"id\":\"x\",\"user_id\":\"guest\"\x7d"),
   ("course_x_tasks", StoredVal.str "[\"a\",\"b\",\"c\"]"),
   ("access_token", StoredVal.str "tok")]

theorem find?_filter_preserve (st : Store) (p : String → Bool) (k : String) (h : p k = false) :
    (st.filter (fun kv => !(p kv.1))).find? (fun kv => kv.1 == k)
      = st.find? (fun kv => kv.1 == k) := by
  induction st with
  | nil => rfl
  | cons kv rest ih =>
    cases hpk : p kv.1 with
    | true =>
      have hb : (kv.1 == k) = false := by
        cases hbe : kv.1 == k with
        | false => rfl
        | true => simp [eq_of_beq hbe, h] at hpk
      simp [List.filter_cons, hpk, List.find?_cons, hb, ih]
    | false =>
      cases hbe : kv.1 == k with
      | true => simp [List.filter_cons, hpk, List.find?_cons, hbe]
      | false => simp [List.filter_cons, hpk, List.find?_cons, hbe, ih]

theorem find?_filter_none (st : Store) (k : String) :
    (st.filter (fun kv => !(kv.1 == k))).find? (fun kv => kv.1 == k) = none := by
  induction st with
  | nil => rfl
  | cons kv rest ih =>
    cases hbe : kv.1 == k with
    | true => simp [List.filter_cons, hbe, ih]
    | false => simp [List.filter_cons, List.find?_cons, hbe, ih]

theorem lsGet_lsSet_self (st : Store) (k : String) (v : StoredVal) :
    lsGet (lsSet st k v) k = some v := by
  simp [lsGet, lsSet, List.find?_cons]

theorem guest_token_ne_empty (f : String) : (("guest-" ++ f) == "") = false := by
  rw [beq_eq_false_iff_ne]
  intro h
  have hl := congrArg String.length h
  rw [String.length_append] at hl
  have h6 : String.length "guest-" = 6 := rfl
  have h0 : String.length "" = 0 := rfl
  rw [h6, h0] at hl
  omega

theorem addStats_zero_left (a : Stats) : addStats ⟨0, 0, 0⟩ a = a := by
  cases a
  simp [addStats]

theorem addStats_zero_right (a : Stats) : addStats a ⟨0, 0, 0⟩ = a := by
  cases a
  simp [addStats]

theorem addStats_assoc (a b c : Stats) :
    addStats (addStats a b) c = addStats a (addStats b c) := by
  cases a
  cases b
  cases c
  simp [addStats, Nat.add_assoc]

theorem foldl_addStats_shift (now : Int) (l : List StoredTask) (a : Stats) :
    l.foldl (fun acc t => addStats acc (taskStats now t)) a
      = addStats a (computeStats now l) := by
  induction l generalizing a with
  | nil => simp [computeStats, addStats_zero_right]
  | cons t rest ih =>
    have h1 : computeStats now (t :: rest)
        = addStats (taskStats now t) (computeStats now rest) := by
      show rest.foldl _ (addStats ⟨0, 0, 0⟩ (taskStats now t)) = _
      rw [ih, addStats_zero_left]
    rw [List.foldl_cons, ih, h1, addStats_assoc]

theorem computeStats_cons (now : Int) (t : StoredTask) (l : List StoredTask) :
    computeStats now (t :: l) = addStats (taskStats now t) (computeStats now l) := by
  show l.foldl _ (addStats ⟨0, 0, 0⟩ (taskStats now t)) = _
  rw [foldl_addStats_shift, addStats_zero_left]

theorem computeStats_append (now : Int) (l1 l2 : List StoredTask) :
    computeStats now (l1 ++ l2)
      = addStats (computeStats now l1) (computeStats now l2) := by
  unfold computeStats
  rw [List.foldl_append, foldl_addStats_shift]
  rfl

theorem taskStats_shape (now : Int) (t : StoredTask) :
    (taskStats now t).completed + (taskStats now t).pending = 1
    ∧ (taskStats now t).dueSoon ≤ (taskStats now t).pending := by
  unfold taskStats
  cases hc : isCompletedStatus t.status with
  | true => simp
  | false =>
    cases hd : isDueSoon now t with
    | true => simp
    | false => simp

/-- Claim C1 (code bug): at the concrete pre-logout state of scenario P7,
the code's `handleLogout` removes only the three auth keys, so after logout
the filter by the guest prefixes still yields all six guest entries — the
token `guest_session_id`, `task_a`/`task_b`/`task_c`, `course_x` and
`course_x_tasks` — instead of the empty set the cleanup contract demands,
and the `access_token` key the contract calls untouched is the one removed. -/
theorem handleLogout_leaves_guest_keys :
    (handleLogout logoutStateP7).filter (fun kv => isGuestDataKey kv.1)
      = [("guest_session_id", StoredVal.str "guest-T1"),
         ("task_a", StoredVal.json { id := "a", user_id := "guest" }),
         ("task_b", StoredVal.json { id := "b", user_id := "guest" }),
         ("task_c", StoredVal.json { id := "c", user_id := "guest" }),
         ("course_x", StoredVal.str "\x7b\"id\":\"x\",\"user_id\":\"guest\"\x7d"),
         ("course_x_tasks", StoredVal.str "[\"a\",\"b\",\"c\"]")]
    ∧ lsGet (handleLogout logoutStateP7) "guest_session_id"
        = some (StoredVal.str "guest-T1")
    ∧ lsGet (handleLogout logoutStateP7) "access_token" = none := by
  decide

/-- Claim C7: the local guest task scan returns only records stored under a
key with prefix `task_` whose `user_id` owner tag equals "guest"; a record
with any other owner tag (such as "registered") never appears in the result. -/
theorem getLocalTasks_guest_only (st : Store) (t : StoredTask)
    (h : t ∈ getLocalTasks st) :
    t.user_id = "guest"
    ∧ ∃ k, (k, StoredVal.json t) ∈ st ∧ keyStartsWith k "task_" = true := by
  induction st with
  | nil => simp [getLocalTasks] at h
  | cons kv rest ih =>
    obtain ⟨k, v⟩ := kv
    simp only [getLocalTasks, List.mem_append] at h
    rcases h with h | h
    · cases hk : keyStartsWith k "task_" with
      | false => simp [hk] at h
      | true =>
        cases v with
        | str s => simp [hk] at h
        | json t' =>
          cases hc : !(t'.id == "") && t'.user_id == "guest" with
          | false => simp [hk, hc] at h
          | true =>
            have ht : t = t' := by simpa [hk, hc] using h
            subst ht
            have hu : t.user_id = "guest" :=
              eq_of_beq (Bool.and_elim_right hc)
            exact ⟨hu, k, List.mem_cons_self _ _, hk⟩
    · obtain ⟨hu, k', hmem, hpre⟩ := ih h
      exact ⟨hu, k', List.mem_cons_of_mem _ hmem, hpre⟩

/-- Claim C9: the counts returned by `computeStats` form a partition of the
input list — completed + pending equals the number of tasks — and every
due-soon task is also counted as pending, so dueSoon ≤ pending. -/
theorem computeStats_partition (now : Int) (l : List StoredTask) :
    (computeStats now l).completed + (computeStats now l).pending = l.length
    ∧ (computeStats now l).dueSoon ≤ (computeStats now l).pending := by
  induction l with
  | nil => simp [computeStats]
  | cons t rest ih =>
    rw [computeStats_cons]
    obtain ⟨h1, h2⟩ := taskStats_shape now t
    obtain ⟨ih1, ih2⟩ := ih
    constructor
    · simp only [addStats, List.length_cons]
      omega
    · simp only [addStats]
      omega

/-- Claim C4: for every evaluation time, a pending task due exactly at the
7-day threshold (`setDate(getDate() + 7)`, i.e. now + 7 days in the
fixed-offset model) is classified due-soon, a pending task due one second
past the threshold is not, and a completed task is never counted as
due-soon regardless of its due date. -/
theorem computeStats_due_soon_boundary (now : Int) (t : StoredTask) :
    (isCompletedStatus t.status = false →
        taskStats now { t with due_date := some (some (dueSoonThreshold now)) }
          = ⟨0, 1, 1⟩
        ∧ taskStats now { t with due_date := some (some (dueSoonThreshold now + 1000)) }
          = ⟨0, 1, 0⟩)
    ∧ (isCompletedStatus t.status = true → taskStats now t = ⟨1, 0, 0⟩) := by
  constructor
  · intro hc
    constructor
    · have hds : isDueSoon now { t with due_date := some (some (dueSoonThreshold now)) }
          = true := by
        simp [isDueSoon, dueSoonThreshold]
      simp [taskStats, hc, hds]
    · have hds : isDueSoon now { t with due_date := some (some (dueSoonThreshold now + 1000)) }
          = false := by
        simp [isDueSoon, dueSoonThreshold]
      simp [taskStats, hc, hds]
  · intro hc
    simp [taskStats, hc]

/-- Claim C8: a non-completed task whose due field is absent or does not
parse as a valid date is counted as pending and never as due-soon, and the
(total) computation handles such input without failure. -/
theorem computeStats_unparsable_due (now : Int) (t : StoredTask)
    (l : List StoredTask)
    (hc : isCompletedStatus t.status = false)
    (hd : t.due_date = none ∨ t.due_date = some none) :
    taskStats now t = ⟨0, 1, 0⟩
    ∧ computeStats now (l ++ [t])
        = addStats (computeStats now l) ⟨0, 1, 0⟩ := by
  have hds : isDueSoon now t = false := by
    rcases hd with hd | hd <;> simp [isDueSoon, hd]
  have h1 : taskStats now t = ⟨0, 1, 0⟩ := by
    simp [taskStats, hc, hds]
  refine ⟨h1, ?_⟩
  rw [computeStats_append]
  rw [computeStats_cons]
  show addStats _ (addStats _ (computeStats now [])) = _
  rw [h1]
  simp [computeStats, addStats_zero_right]

/-- Claim C10: `computeStats` matches the completed status case-insensitively
— any status equal to "completed" up to letter case counts the task as
completed, while any other status value or an absent status counts it as
pending. -/
theorem computeStats_status_case_insensitive (now : Int) (t : StoredTask) :
    (∀ s, jsToLower s = "completed" →
        taskStats now { t with status := some s } = ⟨1, 0, 0⟩)
    ∧ taskStats now { t with status := some "Completed" } = ⟨1, 0, 0⟩
    ∧ taskStats now { t with status := some "COMPLETED" } = ⟨1, 0, 0⟩
    ∧ (jsToLower (t.status.getD "") ≠ "completed" →
        (taskStats now t).completed = 0 ∧ (taskStats now t).pending = 1)
    ∧ (taskStats now { t with status := none }).completed = 0
    ∧ (taskStats now { t with status := none }).pending = 1 := by
  have hgen : ∀ s, jsToLower s = "completed" →
      taskStats now { t with status := some s } = ⟨1, 0, 0⟩ := by
    intro s hs
    have hc : isCompletedStatus (some s) = true := by
      simp [isCompletedStatus, hs]
    simp [taskStats, hc]
  have hnone : isCompletedStatus (none : Option String) = false := by decide
  refine ⟨hgen, hgen _ (by decide), hgen _ (by decide), ?_, ?_, ?_⟩
  · intro hne
    have hc : isCompletedStatus t.status = false := by
      simp [isCompletedStatus, hne]
    simp [taskStats, hc]
  · simp [taskStats, hnone]
  · simp [taskStats, hnone]

/-- Claim C3: with a truthy access token and a successful, non-empty remote
fetch, the dashboard stats are computed from exactly the remote list; with a
failed fetch, an empty remote list, or no truthy access token, they are
computed from exactly the guest-filtered local scan. -/
theorem refreshStats_resolution (st : Store) (remote : Option (List StoredTask))
    (now : Int) :
    (∀ l, jsTruthyStr (lsGetString st "access_token") = true →
        remote = some l → l ≠ [] →
        refreshStats st remote now = computeStats now l)
    ∧ ((jsTruthyStr (lsGetString st "access_token") = false
          ∨ remote = none ∨ remote = some []) →
        refreshStats st remote now = computeStats now (getLocalTasks st)) := by
  constructor
  · intro l hT hr hne
    subst hr
    have hl : 0 < l.length := List.length_pos.mpr hne
    simp [refreshStats, hT, hl]
  · intro h
    rcases h with h | h | h
    · simp [refreshStats, h]
    · subst h
      cases hT : jsTruthyStr (lsGetString st "access_token") with
      | true => simp [refreshStats, hT]
      | false => simp [refreshStats, hT]
    · subst h
      cases hT : jsTruthyStr (lsGetString st "access_token") with
      | true => simp [refreshStats, hT]
      | false => simp [refreshStats, hT]

/-- Claim C5: if the migrate call fails (non-ok HTTP response or a network
error thrown by fetch), `migrateGuestData` returns exactly zero counts and
leaves the whole local-storage state — guest token and every task_/course_
key — unchanged, so the migration can be retried. -/
theorem migrateGuestData_failure (st : Store) (resp : MigrateResponse)
    (h : resp = MigrateResponse.httpError ∨ resp = MigrateResponse.networkError) :
    migrateGuestData st resp = (⟨0, 0⟩, st) := by
  rcases h with h | h <;> subst h <;>
    cases hT : jsTruthyStr (getGuestSessionId st) <;>
      simp [migrateGuestData, hT]

/-- Claim C6: `getOrCreateGuestSession` is idempotent — an existing truthy
token is returned unchanged with no store write and no remote registration;
when the token is absent a fresh `guest-<uuid>` token is synthesized,
persisted and registered; and of two consecutive calls the second returns
the same token as the first, performs no registration of its own, and the
token is persisted after the first call regardless of how the fire-and-forget
registration fares. -/
theorem getOrCreateGuestSession_idempotent (st : Store) (f1 f2 : String) :
    (∀ s, lsGetString st "guest_session_id" = some s → (s == "") = false →
        getOrCreateGuestSession st f1 = (s, st, false))
    ∧ (jsTruthyStr (lsGetString st "guest_session_id") = false →
        getOrCreateGuestSession st f1
          = ("guest-" ++ f1,
             lsSet st "guest_session_id" (StoredVal.str ("guest-" ++ f1)), true))
    ∧ (getOrCreateGuestSession ((getOrCreateGuestSession st f1).2.1) f2).1
        = (getOrCreateGuestSession st f1).1
    ∧ (getOrCreateGuestSession ((getOrCreateGuestSession st f1).2.1) f2).2.2 = false
    ∧ lsGetString ((getOrCreateGuestSession st f1).2.1) "guest_session_id"
        = some (getOrCreateGuestSession st f1).1 := by
  refine ⟨?_, ?_, ?_⟩
  · intro s hs hse
    simp [getOrCreateGuestSession, hs, jsTruthyStr, hse]
  · intro h
    simp [getOrCreateGuestSession, h]
  · cases hT : jsTruthyStr (lsGetString st "guest_session_id") with
    | true =>
      cases hs : lsGetString st "guest_session_id" with
      | none => simp [hs, jsTruthyStr] at hT
      | some s =>
        have hse : (s == "") = false := by
          rw [hs] at hT
          simpa [jsTruthyStr] using hT
        have h1 : getOrCreateGuestSession st f1 = (s, st, false) := by
          simp [getOrCreateGuestSession, hs, jsTruthyStr, hse]
        rw [h1]
        have h2 : getOrCreateGuestSession st f2 = (s, st, false) := by
          simp [getOrCreateGuestSession, hs, jsTruthyStr, hse]
        simp [h2, hs]
    | false =>
      have h1 : getOrCreateGuestSession st f1
          = ("guest-" ++ f1,
             lsSet st "guest_session_id" (StoredVal.str ("guest-" ++ f1)), true) := by
        simp [getOrCreateGuestSession, hT]
      rw [h1]
      have hget : lsGetString
          (lsSet st "guest_session_id" (StoredVal.str ("guest-" ++ f1)))
          "guest_session_id" = some ("guest-" ++ f1) := by
        rw [lsGetString, lsGet_lsSet_self]
        rfl
      have h2 : getOrCreateGuestSession
          (lsSet st "guest_session_id" (StoredVal.str ("guest-" ++ f1))) f2
          = ("guest-" ++ f1,
             lsSet st "guest_session_id" (StoredVal.str ("guest-" ++ f1)), false) := by
        simp [getOrCreateGuestSession, hget, jsTruthyStr, guest_token_ne_empty]
      simp [h2, hget]

theorem lsGet_lsRemove_self (st : Store) (k : String) :
    lsGet (lsRemove st k) k = none := by
  have h := find?_filter_none st k
  simp only [lsGet, lsRemove]
  rw [h]
  rfl

theorem lsGet_lsRemove_other (st : Store) (k0 k : String)
    (h : (k == k0) = false) :
    lsGet (lsRemove st k0) k = lsGet st k := by
  have hp := find?_filter_preserve st (fun x => x == k0) k h
  simp only [lsGet, lsRemove]
  rw [hp]

/-- Claim C2 counterexample: in a state holding the guest token and a local
task key, a successful migration removes the token but leaves the `task_a`
key in place — the code does not delete the local task/course keys. -/
theorem migrateGuestData_keeps_task_keys_cex :
    (migrateGuestData
        [("guest_session_id", StoredVal.str "guest-T1"),
         ("task_a", StoredVal.json { id := "a", user_id := "guest" })]
        (MigrateResponse.ok 1 0)).2
      = [("task_a", StoredVal.json { id := "a", user_id := "guest" })] := by
  decide

/-- Claim C2 (amended): when a guest token is present and the migrate call
returns ok, `migrateGuestData` reports the remote's counts and deletes only
the guest session token; every other local key — including all task_/course_
keys — is left untouched. -/
theorem migrateGuestData_ok_clears_token_only (st : Store) (a b : Nat)
    (h : jsTruthyStr (getGuestSessionId st) = true) :
    migrateGuestData st (MigrateResponse.ok a b) = (⟨a, b⟩, clearGuestSession st)
    ∧ lsGet (clearGuestSession st) "guest_session_id" = none
    ∧ ∀ k, (k == "guest_session_id") = false →
        lsGet (clearGuestSession st) k = lsGet st k := by
  refine ⟨by simp [migrateGuestData, h], ?_, ?_⟩
  · exact lsGet_lsRemove_self st "guest_session_id"
  · intro k hk
    exact lsGet_lsRemove_other st "guest_session_id" k hk

theorem migrateGuestData_ok_clears_token_only_witness :
    migrateGuestData [("guest_session_id", StoredVal.str "guest-T1")]
        (MigrateResponse.ok 2 1)
      = (⟨2, 1⟩, clearGuestSession [("guest_session_id", StoredVal.str "guest-T1")]) :=
  (migrateGuestData_ok_clears_token_only
      [("guest_session_id", StoredVal.str "guest-T1")] 2 1 (by decide)).1

theorem refreshStats_resolution_witness :
    refreshStats [("access_token", StoredVal.str "tok")]
        (some [{ id := "r1" }]) 0
      = computeStats 0 [{ id := "r1" }]
    ∧ refreshStats [("access_token", StoredVal.str "tok")] none 0
      = computeStats 0 (getLocalTasks [("access_token", StoredVal.str "tok")]) :=
  ⟨(refreshStats_resolution _ _ 0).1 [{ id := "r1" }] (by decide) rfl (by decide),
   (refreshStats_resolution _ _ 0).2 (Or.inr (Or.inl rfl))⟩

theorem computeStats_due_soon_boundary_witness :
    (taskStats 0 { (⟨"", "", none, some "pending", ""⟩ : StoredTask) with
          due_date := some (some (dueSoonThreshold 0)) } = ⟨0, 1, 1⟩
      ∧ taskStats 0 { (⟨"", "", none, some "pending", ""⟩ : StoredTask) with
          due_date := some (some (dueSoonThreshold 0 + 1000)) } = ⟨0, 1, 0⟩)
    ∧ taskStats 0 (⟨"", "", none, some "completed", ""⟩ : StoredTask) = ⟨1, 0, 0⟩ :=
  ⟨(computeStats_due_soon_boundary 0 _).1 (by decide),
   (computeStats_due_soon_boundary 0 _).2 (by decide)⟩

theorem migrateGuestData_failure_witness :
    migrateGuestData
        [("guest_session_id", StoredVal.str "guest-T1"),
         ("task_a", StoredVal.json { id := "a", user_id := "guest" })]
        MigrateResponse.httpError
      = (⟨0, 0⟩,
         [("guest_session_id", StoredVal.str "guest-T1"),
          ("task_a", StoredVal.json { id := "a", user_id := "guest" })]) :=
  migrateGuestData_failure _ _ (Or.inl rfl)

theorem getOrCreateGuestSession_idempotent_witness :
    getOrCreateGuestSession [("guest_session_id", StoredVal.str "guest-T1")] "u1"
      = ("guest-T1", [("guest_session_id", StoredVal.str "guest-T1")], false)
    ∧ getOrCreateGuestSession [] "u1"
      = ("guest-u1", lsSet [] "guest_session_id" (StoredVal.str "guest-u1"), true) :=
  ⟨(getOrCreateGuestSession_idempotent
        [("guest_session_id", StoredVal.str "guest-T1")] "u1" "u2").1
      "guest-T1" (by decide) (by decide),
   (getOrCreateGuestSession_idempotent [] "u1" "u2").2.1 (by decide)⟩

theorem getLocalTasks_guest_only_witness :
    ({ id := "1", user_id := "guest" } : StoredTask).user_id = "guest"
    ∧ ∃ k, (k, StoredVal.json { id := "1", user_id := "guest" })
          ∈ ([("task_1", StoredVal.json { id := "1", user_id := "guest" }),
              ("task_2", StoredVal.json { id := "2", user_id := "registered" })] : Store)
        ∧ keyStartsWith k "task_" = true :=
  getLocalTasks_guest_only _ _ (by decide)

theorem computeStats_unparsable_due_witness :
    taskStats 0 ({ id := "x", due_date := some none } : StoredTask) = ⟨0, 1, 0⟩
    ∧ computeStats 0 ([] ++ [{ id := "x", due_date := some none }])
        = addStats (computeStats 0 []) ⟨0, 1, 0⟩ :=
  computeStats_unparsable_due 0 _ [] (by decide) (Or.inr rfl)

theorem computeStats_status_case_insensitive_witness :
    taskStats 0 { ({ } : StoredTask) with status := some "CoMpLeTeD" } = ⟨1, 0, 0⟩
    ∧ (taskStats 0 ({ status := some "overdue" } : StoredTask)).completed = 0
    ∧ (taskStats 0 ({ status := some "overdue" } : StoredTask)).pending = 1 :=
  ⟨(computeStats_status_case_insensitive 0 { }).1 "CoMpLeTeD" (by decide),
   ((computeStats_status_case_insensitive 0 { status := some "overdue" }).2.2.2.1
      (by decide)).1,
   ((computeStats_status_case_insensitive 0 { status := some "overdue" }).2.2.2.1
      (by decide)).2⟩
